import Mathlib

/-!
Verification of the setup orchestration service (src/services/setup.js).

The single source file defines `SetupService` with three static operations:
`isAvailable`, `validate`, and `setup`.  Its collaborators
(`UsersService`, `SettingsService`, `MigrationService`, `SettingsModel`,
the error classes and the `INSTALL_LOCK` flag) live outside the provided
sources, so they are modelled from the specification's interface
descriptions: each external operation may either succeed with its
spec-described effect on the store state or fail with an arbitrary
injected error.  External state (the configuration singleton, the account
store, applied migrations) is threaded explicitly, together with a log of
the effectful operations invoked, so that frame and ordering properties
can be stated.
-/

namespace Talk

/-- Error values.  The four named constructors correspond to
`ErrMissingEmail`, `ErrInstallLock`, `ErrSettingsInit` and
`ErrSettingsNotInit` from `../errors`; `ext n` stands for any other
failure surfaced by an external collaborator (migration execution,
configuration persistence, account creation, validation rules). -/
inductive Err where
  | missingEmail
  | installLock
  | settingsInit
  | settingsNotInit
  | ext (code : Nat)
deriving DecidableEq, Repr

/-- An account record, as created by `UsersService.createLocalUser`.
The email is optional because the request payload may omit it. -/
structure User where
  id : Nat
  email : Option String
  username : String
  password : String
  role : String
  emailConfirmed : Bool
deriving DecidableEq, Repr

/-- Effectful external operations, logged in call order. -/
inductive Ev where
  | readSettings
  | listPending
  | runMigrations
  | updateSettings
  | createUser
  | setRole
  | confirmEmail
deriving DecidableEq, Repr

/-- External state threaded through the service: the configuration
singleton kept by `SettingsService`, the accounts kept by
`UsersService`, the migrations applied so far, and the log of external
operations invoked. -/
structure St where
  settingsRec : Option String
  accounts : List User
  migrationsApplied : List String
  log : List Ev
deriving DecidableEq, Repr

/-- Process environment: the `INSTALL_LOCK` flag from `../config`,
read only by `isAvailable`. -/
structure Env where
  installLock : Bool
deriving DecidableEq, Repr

/-- Modelled from the spec: the behaviour of the external collaborators
(`SettingsService`, `UsersService`, `MigrationService`, `SettingsModel`),
whose code is not in the provided sources.  Validation rules are opaque
deterministic functions of their input; each effectful operation either
performs its spec-described store effect or fails with an injected
error. -/
structure Behavior where
  selectFault : Option Err
  isValidUsername : String → Bool → Option Err
  isValidPassword : String → Option Err
  validateSettings : String → Option Err
  pending : List String
  listFault : Option Err
  runFault : Option Err
  updateFault : Option Err
  createFault : Option Err
  setRoleFault : Option Err
  confirmFault : Option Err

/-- Modelled from the spec: `SettingsService.select('id')` reads the
configuration singleton; it yields the record when one exists, fails with
the designated `ErrSettingsNotInit` signal when none does, and may fail
with any other read error.  Read-only: it touches no store. -/
def selectSettings (b : Behavior) (st : St) : Except Err String × St :=
  let st' := { st with log := st.log ++ [Ev.readSettings] }
  match b.selectFault with
  | some e => (.error e, st')
  | none =>
    match st.settingsRec with
    | some s => (.ok s, st')
    | none => (.error .settingsNotInit, st')

/-- Modelled from the spec: `MigrationService.listPending()` produces the
ordered list of pending migrations, or fails. -/
def listPendingOp (b : Behavior) (st : St) : Except Err (List String) × St :=
  let st' := { st with log := st.log ++ [Ev.listPending] }
  match b.listFault with
  | some e => (.error e, st')
  | none => (.ok b.pending, st')

/-- Modelled from the spec: `MigrationService.run(migrations)` applies
the given migrations in order, or fails. -/
def runOp (b : Behavior) (migrations : List String) (st : St) :
    Except Err Unit × St :=
  let st' := { st with log := st.log ++ [Ev.runMigrations] }
  match b.runFault with
  | some e => (.error e, st')
  | none =>
    (.ok (), { st' with migrationsApplied := st'.migrationsApplied ++ migrations })

/-- Modelled from the spec: `SettingsService.update(settings)` replaces or
creates the configuration singleton and returns the persisted settings,
or fails. -/
def updateOp (b : Behavior) (settings : String) (st : St) :
    Except Err String × St :=
  let st' := { st with log := st.log ++ [Ev.updateSettings] }
  match b.updateFault with
  | some e => (.error e, st')
  | none => (.ok settings, { st' with settingsRec := some settings })

/-- Modelled from the spec: `UsersService.createLocalUser(ctx, email,
password, username)` creates a fresh account record (no role, email not
yet confirmed) and returns it, or fails. -/
def createLocalUser (b : Behavior) (ctx : Nat) (email : Option String)
    (password : String) (username : String) (st : St) :
    Except Err User × St :=
  let _ := ctx
  let st' := { st with log := st.log ++ [Ev.createUser] }
  match b.createFault with
  | some e => (.error e, st')
  | none =>
    let u : User := ⟨st.accounts.length, email, username, password, "", false⟩
    (.ok u, { st' with accounts := st'.accounts ++ [u] })

/-- Modelled from the spec: `UsersService.setRole(id, role)` updates the
role of the stored account with the given id, or fails. -/
def setRoleOp (b : Behavior) (uid : Nat) (role : String) (st : St) :
    Except Err Unit × St :=
  let st' := { st with log := st.log ++ [Ev.setRole] }
  match b.setRoleFault with
  | some e => (.error e, st')
  | none =>
    (.ok (), { st' with
      accounts := st'.accounts.map fun a =>
        if a.id = uid then { a with role := role } else a })

/-- Modelled from the spec: `UsersService.confirmEmail(id, email)` marks
the stored account's email as confirmed, or fails. -/
def confirmEmailOp (b : Behavior) (uid : Nat) (email : Option String)
    (st : St) : Except Err Unit × St :=
  let _ := email
  let st' := { st with log := st.log ++ [Ev.confirmEmail] }
  match b.confirmFault with
  | some e => (.error e, st')
  | none =>
    (.ok (), { st' with
      accounts := st'.accounts.map fun a =>
        if a.id = uid then { a with emailConfirmed := true } else a })

/-- The user part of the setup request payload. -/
structure SetupUser where
  email : Option String
  username : String
  password : String
deriving DecidableEq, Repr

/-- The setup request payload `{ settings, user }`. -/
structure SetupInput where
  settings : String
  user : SetupUser
deriving DecidableEq, Repr

/-- JavaScript truth test `!email`: true when the email is absent
(`undefined`) or the empty string. -/
def emailMissing : Option String → Bool
  | none => true
  | some s => s = ""

/-- Embeds `SetupService.isAvailable` from src/services/setup.js: fail
with `ErrInstallLock` when the lock flag is set; otherwise read the
settings singleton inside a try/catch — a successful read raises
`ErrSettingsInit`, which the catch rethrows; a read failing with
`ErrSettingsNotInit` is swallowed and the check succeeds; any other
error is rethrown unchanged. -/
def isAvailable (env : Env) (b : Behavior) (st : St) : Except Err Unit × St :=
  if env.installLock then
    (.error .installLock, st)
  else
    match selectSettings b st with
    | (.ok _, st') => (.error .settingsInit, st')
    | (.error e, st') =>
      if e = .settingsNotInit then (.ok (), st') else (.error e, st')

/-- Embeds `SetupService.validate` from src/services/setup.js: fail with
`ErrMissingEmail` when `!email`; otherwise join the three independent
checks (`isValidUsername(username, false)`, `isValidPassword(password)`,
`settingsModel.validate()`).  The `Promise.all` join is modelled as the
left-to-right first error; the checks are pure, so only the result
matters. -/
def validate (b : Behavior) (input : SetupInput) : Except Err Unit :=
  if emailMissing input.user.email then
    .error .missingEmail
  else
    match b.isValidUsername input.user.username false with
    | some e => .error e
    | none =>
      match b.isValidPassword input.user.password with
      | some e => .error e
      | none =>
        match b.validateSettings input.settings with
        | some e => .error e
        | none => .ok ()

/-- Embeds `SetupService.setup` from src/services/setup.js: validate the
input, list and run the pending migrations, persist the settings, create
the user, then grant the `ADMIN` role and confirm the email (a
`Promise.all` pair: both operations are issued; the first error, if any,
is the result), and return `{ settings, user }`.  Each awaited failure
aborts the remaining sequence with that error. -/
def setup (b : Behavior) (ctx : Nat) (input : SetupInput) (st : St) :
    Except Err (String × User) × St :=
  match validate b input with
  | .error e => (.error e, st)
  | .ok _ =>
    match listPendingOp b st with
    | (.error e, st1) => (.error e, st1)
    | (.ok migrations, st1) =>
      match runOp b migrations st1 with
      | (.error e, st2) => (.error e, st2)
      | (.ok _, st2) =>
        match updateOp b input.settings st2 with
        | (.error e, st3) => (.error e, st3)
        | (.ok settings, st3) =>
          match createLocalUser b ctx input.user.email input.user.password
              input.user.username st3 with
          | (.error e, st4) => (.error e, st4)
          | (.ok user, st4) =>
            let p1 := setRoleOp b user.id "ADMIN" st4
            let p2 := confirmEmailOp b user.id input.user.email p1.2
            match p1.1 with
            | .error e => (.error e, p2.2)
            | .ok _ =>
              match p2.1 with
              | .error e => (.error e, p2.2)
              | .ok _ => (.ok (settings, user), p2.2)

/-- A behaviour in which every external collaborator succeeds and one
migration is pending. -/
def bOk : Behavior :=
  ⟨none, fun _ _ => none, fun _ => none, fun _ => none,
    ["m1"], none, none, none, none, none, none⟩

/-- The fresh external state: no configuration record, no accounts, no
migrations applied, empty log. -/
def st0 : St := ⟨none, [], [], []⟩

/-- A well-formed setup request. -/
def input0 : SetupInput := ⟨"S", ⟨some "a@b.com", "admin", "Str0ngPW!"⟩⟩

/-- A setup request whose user has no email. -/
def inputNoEmail : SetupInput := ⟨"S", ⟨none, "admin", "Str0ngPW!"⟩⟩

/-- A state whose configuration singleton is already present. -/
def stInit : St := ⟨some "S", [], [], []⟩

/-- The state after one settings read has been logged. -/
def stRead (st : St) : St := { st with log := st.log ++ [Ev.readSettings] }

/-- All collaborators succeed except the settings read, which fails with
an unrecognised error. -/
def bSelFault : Behavior := { bOk with selectFault := some (.ext 7) }

/-- All collaborators succeed except the password-strength check. -/
def bBadPw : Behavior := { bOk with isValidPassword := fun _ => some (.ext 3) }

/-- All collaborators succeed except migration execution. -/
def bRunFail : Behavior := { bOk with runFault := some (.ext 4) }

/-- All collaborators succeed except account creation. -/
def bCreateFail : Behavior := { bOk with createFault := some (.ext 5) }

/-- The account returned by the first successful setup on a fresh state. -/
def user0 : User := ⟨0, some "a@b.com", "admin", "Str0ngPW!", "", false⟩

/-- The account returned by a second successful setup. -/
def user1 : User := ⟨1, some "a@b.com", "admin", "Str0ngPW!", "", false⟩

/-- `beforeIn a c l` holds when some occurrence of `a` in `l` precedes
some occurrence of `c`. -/
def beforeIn (a c : Ev) : List Ev → Bool
  | [] => false
  | x :: xs => if x = a then decide (c ∈ xs) else beforeIn a c xs

/-- C4: `isAvailable` fails with `Locked` when the install lock is set;
otherwise it reads the configuration record and fails with
`AlreadyInitialized` if a record is found, succeeds if the read fails
with the `NotInitialized` signal, and propagates any other read failure
unchanged. -/
theorem isAvailable_gate (env : Env) (b : Behavior) (st : St) :
    (env.installLock = true →
      isAvailable env b st = (.error .installLock, st))
  ∧ (env.installLock = false →
      (∀ s st', selectSettings b st = (.ok s, st') →
        isAvailable env b st = (.error .settingsInit, st'))
    ∧ (∀ st', selectSettings b st = (.error .settingsNotInit, st') →
        isAvailable env b st = (.ok (), st'))
    ∧ (∀ e st', e ≠ Err.settingsNotInit →
        selectSettings b st = (.error e, st') →
        isAvailable env b st = (.error e, st'))) := by
  refine ⟨fun h => by simp [isAvailable, h], fun h => ⟨?_, ?_, ?_⟩⟩
  · intro s st' hsel
    simp [isAvailable, h, hsel]
  · intro st' hsel
    simp [isAvailable, h, hsel]
  · intro e st' hne hsel
    simp [isAvailable, h, hsel, hne]

/-- Witness for C4: all four branches at concrete states. -/
theorem isAvailable_gate_witness :
    isAvailable ⟨true⟩ bOk st0 = (.error .installLock, st0)
  ∧ isAvailable ⟨false⟩ bOk stInit = (.error .settingsInit, stRead stInit)
  ∧ isAvailable ⟨false⟩ bOk st0 = (.ok (), stRead st0)
  ∧ isAvailable ⟨false⟩ bSelFault st0 = (.error (.ext 7), stRead st0) :=
  ⟨(isAvailable_gate ⟨true⟩ bOk st0).1 rfl,
   ((isAvailable_gate ⟨false⟩ bOk stInit).2 rfl).1 "S" (stRead stInit) rfl,
   ((isAvailable_gate ⟨false⟩ bOk st0).2 rfl).2.1 (stRead st0) rfl,
   ((isAvailable_gate ⟨false⟩ bSelFault st0).2 rfl).2.2 (.ext 7) (stRead st0)
     (by decide) rfl⟩

/-- C10: `isAvailable` is read-only — it never changes the configuration
record, the accounts or the applied migrations, and it performs at most
one settings read (its only logged operation). -/
theorem isAvailable_readOnly (env : Env) (b : Behavior) (st : St) :
    (isAvailable env b st).2.settingsRec = st.settingsRec
  ∧ (isAvailable env b st).2.accounts = st.accounts
  ∧ (isAvailable env b st).2.migrationsApplied = st.migrationsApplied
  ∧ ((isAvailable env b st).2.log = st.log
    ∨ (isAvailable env b st).2.log = st.log ++ [Ev.readSettings]) := by
  cases henv : env.installLock <;>
    cases hf : b.selectFault <;>
      cases hrec : st.settingsRec <;>
        simp [isAvailable, selectSettings, henv, hf, hrec] <;>
          split <;> simp

/-- C5: when the input's email is absent or empty, `validate` fails with
`MissingEmail` whatever the outcome of every other check, and `setup`
fails the same way leaving the external state completely untouched (no
migration listed or run, no configuration written, no account created,
nothing logged). -/
theorem validate_missingEmail (b : Behavior) (ctx : Nat) (input : SetupInput)
    (st : St) (h : emailMissing input.user.email = true) :
    validate b input = .error .missingEmail
  ∧ setup b ctx input st = (.error .missingEmail, st) := by
  have hv : validate b input = .error .missingEmail := by
    simp [validate, h]
  exact ⟨hv, by simp [setup, hv]⟩

/-- Witness for C5: a request without an email. -/
theorem validate_missingEmail_witness :
    emailMissing inputNoEmail.user.email = true
  ∧ validate bOk inputNoEmail = .error .missingEmail
  ∧ setup bOk 0 inputNoEmail st0 = (.error .missingEmail, st0) :=
  ⟨rfl, (validate_missingEmail bOk 0 inputNoEmail st0 rfl).1,
    (validate_missingEmail bOk 0 inputNoEmail st0 rfl).2⟩

/-- C8: with the email present, `validate` succeeds exactly when all
three fan-out checks succeed, and whenever at least one check fails,
`validate` fails with one of the errors those checks produced — no
failure is masked. -/
theorem validate_join (b : Behavior) (input : SetupInput)
    (h : emailMissing input.user.email = false) :
    (validate b input = .ok () ↔
      b.isValidUsername input.user.username false = none
      ∧ b.isValidPassword input.user.password = none
      ∧ b.validateSettings input.settings = none)
  ∧ ((b.isValidUsername input.user.username false ≠ none
      ∨ b.isValidPassword input.user.password ≠ none
      ∨ b.validateSettings input.settings ≠ none) →
    ∃ e, validate b input = .error e
      ∧ (b.isValidUsername input.user.username false = some e
        ∨ b.isValidPassword input.user.password = some e
        ∨ b.validateSettings input.settings = some e)) := by
  cases hu : b.isValidUsername input.user.username false <;>
    cases hp : b.isValidPassword input.user.password <;>
      cases hs : b.validateSettings input.settings <;>
        simp [validate, h, hu, hp, hs]

/-- Witness for C8: a failing password check surfaces its error. -/
theorem validate_join_witness :
    ∃ e, validate bBadPw input0 = .error e
      ∧ (bBadPw.isValidUsername input0.user.username false = some e
        ∨ bBadPw.isValidPassword input0.user.password = some e
        ∨ bBadPw.validateSettings input0.settings = some e) :=
  (validate_join bBadPw input0 rfl).2 (Or.inr (Or.inl (by decide)))

/-- C7: when account creation is the first failing step, `setup` aborts
with exactly that error and the configuration persisted in the previous
step remains in place — no compensating deletion or rollback. -/
theorem setup_createFail_keepsConfig (b : Behavior) (ctx : Nat)
    (input : SetupInput) (st : St) (e : Err)
    (hv : validate b input = .ok ())
    (hl : b.listFault = none) (hr : b.runFault = none)
    (hu : b.updateFault = none) (hc : b.createFault = some e) :
    (setup b ctx input st).1 = .error e
  ∧ (setup b ctx input st).2.settingsRec = some input.settings := by
  simp [setup, hv, listPendingOp, hl, runOp, hr, updateOp, hu,
    createLocalUser, hc]

/-- Witness for C7: a failing account creation leaves the settings
persisted. -/
theorem setup_createFail_keepsConfig_witness :
    (setup bCreateFail 0 input0 st0).1 = .error (.ext 5)
  ∧ (setup bCreateFail 0 input0 st0).2.settingsRec = some input0.settings :=
  setup_createFail_keepsConfig bCreateFail 0 input0 st0 (.ext 5)
    rfl rfl rfl rfl rfl

/-- C1 counterexample: with the install lock set (so `isAvailable` fails
with `Locked` at call time) and every collaborator succeeding, `setup`
still succeeds — `setup` performs no availability check of its own. -/
theorem setup_ignores_gate_cex :
    (setup bOk 0 input0 st0).1 = .ok ("S", user0)
  ∧ (isAvailable ⟨true⟩ bOk st0).1 = .error .installLock := ⟨rfl, rfl⟩

/-- C1 amended: `setup` succeeds only if `validate` succeeds on the same
input; it performs no availability check itself, so `isAvailable`
succeeding at call time is not required. -/
theorem setup_requires_validate (b : Behavior) (ctx : Nat)
    (input : SetupInput) (st : St) (r : String × User)
    (h : (setup b ctx input st).1 = .ok r) :
    validate b input = .ok () := by
  cases hv : validate b input with
  | error e => simp [setup, hv] at h
  | ok u => cases u; rfl

/-- Witness for amended C1: a fully successful setup had a successful
validation. -/
theorem setup_requires_validate_witness :
    validate bOk input0 = .ok () :=
  setup_requires_validate bOk 0 input0 st0 ("S", user0) rfl

/-- C2 counterexample: a first `setup` succeeds and persists the
configuration, yet a second `setup` on the resulting state succeeds
again (creating a second account) instead of failing with
`AlreadyInitialized` — `setup` never consults the configuration
record. -/
theorem setup_twice_cex :
    (setup bOk 0 input0 st0).1 = .ok ("S", user0)
  ∧ (setup bOk 0 input0 st0).2.settingsRec = some "S"
  ∧ (setup bOk 0 input0 (setup bOk 0 input0 st0).2).1 = .ok ("S", user1) :=
  ⟨rfl, rfl, rfl⟩

/-- C2 amended: after a first `setup` succeeds and persists the
configuration, it is `isAvailable` (with the lock unset and the read
not faulted) that fails with `AlreadyInitialized`; `setup` itself
performs no such check, so a second call proceeds past it. -/
theorem setup_then_isAvailable_alreadyInit (env : Env) (b : Behavior)
    (ctx : Nat) (input : SetupInput) (st : St) (r : String × User)
    (henv : env.installLock = false) (hsel : b.selectFault = none)
    (h : (setup b ctx input st).1 = .ok r) :
    (isAvailable env b (setup b ctx input st).2).1 = .error .settingsInit := by
  have hrec : (setup b ctx input st).2.settingsRec = some input.settings := by
    cases hv : validate b input <;>
      cases hl : b.listFault <;>
        cases hr : b.runFault <;>
          cases hu : b.updateFault <;>
            cases hc : b.createFault <;>
              cases hsr : b.setRoleFault <;>
                cases hce : b.confirmFault <;>
                  simp_all [setup, listPendingOp, runOp, updateOp,
                    createLocalUser, setRoleOp, confirmEmailOp]
  simp [isAvailable, selectSettings, henv, hsel, hrec]

/-- Witness for amended C2: after the first successful setup,
`isAvailable` reports `AlreadyInitialized`. -/
theorem setup_then_isAvailable_alreadyInit_witness :
    (isAvailable ⟨false⟩ bOk (setup bOk 0 input0 st0).2).1 =
      .error .settingsInit :=
  setup_then_isAvailable_alreadyInit ⟨false⟩ bOk 0 input0 st0 ("S", user0)
    rfl rfl rfl

/-- C3 counterexample: a fully successful setup returns the
creation-time snapshot of the user: `setRole` and `confirmEmail` are
store updates keyed by the user's id, issued after the snapshot was
taken, so the returned user value has an empty role and an unconfirmed
email. -/
theorem setup_returned_user_cex :
    (setup bOk 0 input0 st0).1 = .ok ("S", user0)
  ∧ user0.role ≠ "ADMIN" ∧ user0.emailConfirmed = false :=
  ⟨rfl, by decide, rfl⟩

/-- C3 amended: whenever `setup` succeeds, the returned user value is
the account as created — empty role, email not yet confirmed — while
the account record it identifies stands in the final account store with
the `ADMIN` role and a confirmed email. -/
theorem setup_admin_confirmed (b : Behavior) (ctx : Nat) (input : SetupInput)
    (st : St) (s : String) (u : User)
    (h : (setup b ctx input st).1 = .ok (s, u)) :
    u.role = "" ∧ u.emailConfirmed = false
  ∧ ∃ a ∈ (setup b ctx input st).2.accounts,
      a.id = u.id ∧ a.role = "ADMIN" ∧ a.emailConfirmed = true := by
  cases hv : validate b input <;>
    cases hl : b.listFault <;>
      cases hr : b.runFault <;>
        cases hu : b.updateFault <;>
          cases hc : b.createFault <;>
            cases hsr : b.setRoleFault <;>
              cases hce : b.confirmFault <;>
                simp_all [setup, listPendingOp, runOp, updateOp,
                  createLocalUser, setRoleOp, confirmEmailOp]
  obtain ⟨hs, hu'⟩ := h
  subst hu'
  exact ⟨rfl, rfl,
    ⟨st.accounts.length, input.user.email, input.user.username,
      input.user.password, "ADMIN", true⟩, Or.inr rfl, rfl, rfl, rfl⟩

/-- Witness for amended C3: the user returned by a concrete successful
setup is the unmarked snapshot, while its stored account carries the
role and the confirmation flag. -/
theorem setup_admin_confirmed_witness :
    user0.role = "" ∧ user0.emailConfirmed = false
  ∧ ∃ a ∈ (setup bOk 0 input0 st0).2.accounts,
      a.id = user0.id ∧ a.role = "ADMIN" ∧ a.emailConfirmed = true :=
  setup_admin_confirmed bOk 0 input0 st0 "S" user0 rfl

/-- C6: in every execution starting from an unlogged state, account
creation is attempted only after the configuration has been fully
persisted (the update precedes it in the log and the final configuration
holds the input settings), configuration persistence is attempted only
after the pending migrations ran without failure, and if the migration
phase fails then the configuration is untouched, no account is created,
and neither operation is even attempted. -/
theorem setup_precedence (b : Behavior) (ctx : Nat) (input : SetupInput)
    (st : St) (h : st.log = []) :
    (Ev.createUser ∈ (setup b ctx input st).2.log →
      beforeIn Ev.updateSettings Ev.createUser (setup b ctx input st).2.log
        = true
      ∧ (setup b ctx input st).2.settingsRec = some input.settings)
  ∧ (Ev.updateSettings ∈ (setup b ctx input st).2.log →
      beforeIn Ev.runMigrations Ev.updateSettings (setup b ctx input st).2.log
        = true
      ∧ b.runFault = none)
  ∧ ((b.listFault ≠ none ∨ b.runFault ≠ none) →
      (setup b ctx input st).2.settingsRec = st.settingsRec
      ∧ (setup b ctx input st).2.accounts = st.accounts
      ∧ Ev.updateSettings ∉ (setup b ctx input st).2.log
      ∧ Ev.createUser ∉ (setup b ctx input st).2.log) := by
  cases hv : validate b input <;>
    cases hl : b.listFault <;>
      cases hr : b.runFault <;>
        cases hu : b.updateFault <;>
          cases hc : b.createFault <;>
            cases hsr : b.setRoleFault <;>
              cases hce : b.confirmFault <;>
                simp_all [setup, listPendingOp, runOp, updateOp,
                  createLocalUser, setRoleOp, confirmEmailOp, beforeIn]

/-- Witness for C6: in a fully successful run persistence precedes
account creation, and under a failing migration run nothing is persisted
and no account is created. -/
theorem setup_precedence_witness :
    (beforeIn Ev.updateSettings Ev.createUser (setup bOk 0 input0 st0).2.log
      = true
    ∧ (setup bOk 0 input0 st0).2.settingsRec = some input0.settings)
  ∧ ((setup bRunFail 0 input0 st0).2.settingsRec = st0.settingsRec
    ∧ (setup bRunFail 0 input0 st0).2.accounts = st0.accounts
    ∧ Ev.updateSettings ∉ (setup bRunFail 0 input0 st0).2.log
    ∧ Ev.createUser ∉ (setup bRunFail 0 input0 st0).2.log) :=
  ⟨(setup_precedence bOk 0 input0 st0 rfl).1 (by decide),
   (setup_precedence bRunFail 0 input0 st0 rfl).2.2 (Or.inr (by decide))⟩

/-- C9: in every execution starting from an unlogged state, no external
operation is invoked twice (no retries), and the first failing step —
validation, migration listing, migration execution, configuration
persistence, account creation, or one of the two finalize operations —
aborts `setup` with exactly that step's error, invoking none of the
remaining operations (the final log stops at the failing step; the two
finalize operations, issued together by the `Promise.all` pair, are the
sole exception the code makes to the sequence).  Conversely every error
`setup` returns is the error some step produced, never wrapped or
reinterpreted. -/
theorem setup_failure_passthrough (b : Behavior) (ctx : Nat)
    (input : SetupInput) (st : St) (h : st.log = []) :
    (setup b ctx input st).2.log.Nodup
  ∧ (∀ e, validate b input = .error e →
      setup b ctx input st = (.error e, st))
  ∧ (∀ e, validate b input = .ok () → b.listFault = some e →
      (setup b ctx input st).1 = .error e
      ∧ (setup b ctx input st).2.log = [Ev.listPending])
  ∧ (∀ e, validate b input = .ok () → b.listFault = none →
      b.runFault = some e →
      (setup b ctx input st).1 = .error e
      ∧ (setup b ctx input st).2.log = [Ev.listPending, Ev.runMigrations])
  ∧ (∀ e, validate b input = .ok () → b.listFault = none →
      b.runFault = none → b.updateFault = some e →
      (setup b ctx input st).1 = .error e
      ∧ (setup b ctx input st).2.log
          = [Ev.listPending, Ev.runMigrations, Ev.updateSettings])
  ∧ (∀ e, validate b input = .ok () → b.listFault = none →
      b.runFault = none → b.updateFault = none → b.createFault = some e →
      (setup b ctx input st).1 = .error e
      ∧ (setup b ctx input st).2.log
          = [Ev.listPending, Ev.runMigrations, Ev.updateSettings,
             Ev.createUser])
  ∧ (∀ e, validate b input = .ok () → b.listFault = none →
      b.runFault = none → b.updateFault = none → b.createFault = none →
      b.setRoleFault = some e →
      (setup b ctx input st).1 = .error e
      ∧ (setup b ctx input st).2.log
          = [Ev.listPending, Ev.runMigrations, Ev.updateSettings,
             Ev.createUser, Ev.setRole, Ev.confirmEmail])
  ∧ (∀ e, validate b input = .ok () → b.listFault = none →
      b.runFault = none → b.updateFault = none → b.createFault = none →
      b.setRoleFault = none → b.confirmFault = some e →
      (setup b ctx input st).1 = .error e
      ∧ (setup b ctx input st).2.log
          = [Ev.listPending, Ev.runMigrations, Ev.updateSettings,
             Ev.createUser, Ev.setRole, Ev.confirmEmail])
  ∧ (∀ e, (setup b ctx input st).1 = .error e →
      validate b input = .error e ∨ b.listFault = some e ∨ b.runFault = some e
      ∨ b.updateFault = some e ∨ b.createFault = some e
      ∨ b.setRoleFault = some e ∨ b.confirmFault = some e) := by
  refine ⟨?_, ?_, ?_, ?_, ?_, ?_, ?_, ?_, ?_⟩
  · cases hv : validate b input <;>
      cases hl : b.listFault <;>
        cases hr : b.runFault <;>
          cases hu : b.updateFault <;>
            cases hc : b.createFault <;>
              cases hsr : b.setRoleFault <;>
                cases hce : b.confirmFault <;>
                  simp_all [setup, listPendingOp, runOp, updateOp,
                    createLocalUser, setRoleOp, confirmEmailOp]
  · intro e hv
    simp [setup, hv]
  · intro e hv hl
    simp [setup, hv, listPendingOp, hl, h]
  · intro e hv hl hr
    simp [setup, hv, listPendingOp, hl, runOp, hr, h]
  · intro e hv hl hr hu
    simp [setup, hv, listPendingOp, hl, runOp, hr, updateOp, hu, h]
  · intro e hv hl hr hu hc
    simp [setup, hv, listPendingOp, hl, runOp, hr, updateOp, hu,
      createLocalUser, hc, h]
  · intro e hv hl hr hu hc hsr
    cases hce : b.confirmFault <;>
      simp [setup, hv, listPendingOp, hl, runOp, hr, updateOp, hu,
        createLocalUser, hc, setRoleOp, hsr, confirmEmailOp, hce, h]
  · intro e hv hl hr hu hc hsr hce
    simp [setup, hv, listPendingOp, hl, runOp, hr, updateOp, hu,
      createLocalUser, hc, setRoleOp, hsr, confirmEmailOp, hce, h]
  · cases hv : validate b input <;>
      cases hl : b.listFault <;>
        cases hr : b.runFault <;>
          cases hu : b.updateFault <;>
            cases hc : b.createFault <;>
              cases hsr : b.setRoleFault <;>
                cases hce : b.confirmFault <;>
                  simp_all [setup, listPendingOp, runOp, updateOp,
                    createLocalUser, setRoleOp, confirmEmailOp]

/-- Witness for C9: the log of a full run has no repeats; a migration
run that fails first aborts with its own error after exactly the
listing and the run; an account creation that fails first aborts with
its own error after exactly the four preceding operations. -/
theorem setup_failure_passthrough_witness :
    (setup bOk 0 input0 st0).2.log.Nodup
  ∧ ((setup bRunFail 0 input0 st0).1 = .error (.ext 4)
    ∧ (setup bRunFail 0 input0 st0).2.log
        = [Ev.listPending, Ev.runMigrations])
  ∧ ((setup bCreateFail 0 input0 st0).1 = .error (.ext 5)
    ∧ (setup bCreateFail 0 input0 st0).2.log
        = [Ev.listPending, Ev.runMigrations, Ev.updateSettings,
           Ev.createUser]) :=
  ⟨(setup_failure_passthrough bOk 0 input0 st0 rfl).1,
   (setup_failure_passthrough bRunFail 0 input0 st0 rfl).2.2.2.1
     (.ext 4) rfl rfl rfl,
   (setup_failure_passthrough bCreateFail 0 input0 st0 rfl).2.2.2.2.2.1
     (.ext 5) rfl rfl rfl rfl rfl⟩

end Talk
